import Mathlib

/-!
Shallow embedding of the maliketh C2 admin listener (src/server/maliketh/listeners/admin.py),
the operator client helpers (src/client/comms.py) and the opcode table (src/client/opcodes.py).

Conventions of the embedding:
* Timestamps are natural numbers (seconds).  The source stores token expiries as
  strings produced by strftime and re-parses them with strptime using one fixed
  format; on the values reachable through this API strftime/strptime is a
  bijection, so the model stores the parsed timestamp directly.
* Flask header dictionaries are case-insensitive; header lookup lowers both names.
* JSON values are modelled by the inductive type JVal (arrays and objects are
  cons-encoded so that decidable equality is derivable); a response is a JSON
  body paired with an HTTP status code.
* Python string operations (lower, startswith, slicing) are modelled on the
  character list of the string, matching Python semantics for these call sites.
* Python code that can raise an uncaught exception is modelled with Except Unit.
* The cryptographic routine decrypt_and_verify lives outside the provided
  sources (maliketh.crypto.ec) and is passed as an explicit function parameter;
  the sources of fresh randomness (random_hex for tokens, task-id generation)
  and the clock (datetime.now) are passed as explicit arguments.
-/

namespace Maliketh

/-- JSON values.  Arrays and objects are cons-encoded (jarrCons / jobjCons)
so that DecidableEq can be derived. -/
inductive JVal where
  | jnull : JVal
  | jbool (b : Bool) : JVal
  | jnum (n : Int) : JVal
  | jstr (s : String) : JVal
  | jarrNil : JVal
  | jarrCons (hd : JVal) (tl : JVal) : JVal
  | jobjNil : JVal
  | jobjCons (key : String) (val : JVal) (tl : JVal) : JVal
deriving DecidableEq

instance {ε α : Type} [DecidableEq ε] [DecidableEq α] : DecidableEq (Except ε α) := fun x y =>
  match x, y with
  | Except.error a, Except.error b => decidable_of_iff (a = b) (by simp)
  | Except.error _, Except.ok _ => isFalse (by simp)
  | Except.ok _, Except.error _ => isFalse (by simp)
  | Except.ok a, Except.ok b => decidable_of_iff (a = b) (by simp)

/-- Build a JSON object from a list of key/value pairs. -/
def mkObj : List (String × JVal) → JVal
  | [] => JVal.jobjNil
  | (k, v) :: t => JVal.jobjCons k v (mkObj t)

/-- Field access on a JSON object value (Python d[key], as Option). -/
def jget : JVal → String → Option JVal
  | JVal.jobjCons k v t, key => if k == key then some v else jget t key
  | _, _ => none

/-- An Option String rendered into JSON (None becomes null). -/
def optStr : Option String → JVal
  | none => JVal.jnull
  | some s => JVal.jstr s

/-- Python str.lower for the ASCII strings used here (maps every character to
its lower-case form). -/
def pyLower (s : String) : String := String.mk (s.data.map Char.toLower)

/-- Python str.startswith. -/
def pyStartswith (s p : String) : Bool := List.isPrefixOf p.data s.data

/-- Python slicing s[n:] (by characters). -/
def pyDrop (s : String) (n : Nat) : String := String.mk (s.data.drop n)

/-- Python str interpolation of an Optional value (None prints as "None"). -/
def pyFormatOpt : Option String → String
  | none => "None"
  | some s => s

/-- Python truthiness of a JSON value. -/
def pyTruthy : JVal → Bool
  | JVal.jnull => false
  | JVal.jbool b => b
  | JVal.jnum n => n != 0
  | JVal.jstr s => s.length != 0
  | JVal.jarrNil => false
  | JVal.jarrCons _ _ => true
  | JVal.jobjNil => false
  | JVal.jobjCons _ _ _ => true

/-- An operator row (maliketh/models.py schema as used by admin.py and by the
spec's persisted-state table): username (primary key), the shared login secret,
and the current bearer token with its expiry (both optional). -/
structure Operator where
  username : String
  login_secret : String
  auth_token : Option String
  auth_token_expiry : Option Nat
deriving DecidableEq

/-- A task row.  implant_id, opcode and args are stored exactly as supplied in
the request JSON, so they are JSON values. -/
structure Task where
  task_id : String
  operator_id : String
  implant_id : JVal
  opcode : JVal
  args : JVal
  output : Option String
  created_at : Nat
deriving DecidableEq

/-- The persistent store visible to the admin listener. -/
structure ServerState where
  operators : List Operator
  tasks : List Task
deriving DecidableEq

/-- An HTTP request: headers and an optional JSON object body. -/
structure HttpRequest where
  headers : List (String × String)
  json : Option (List (String × JVal))
deriving DecidableEq

/-- A response: JSON body plus HTTP status code. -/
abbrev HttpResponse := JVal × Nat

/-- Case-insensitive header lookup, as Flask request.headers.get(name, None). -/
def headerGet (hs : List (String × String)) (name : String) : Option String :=
  (hs.find? (fun h => pyLower h.1 == pyLower name)).map (fun h => h.2)

/-- Lookup of a key in a JSON object body (Python dict access, as Option). -/
def jsonGet (obj : List (String × JVal)) (key : String) : Option JVal :=
  (obj.find? (fun kv => kv.1 == key)).map (fun kv => kv.2)

/-- Replace the first element satisfying p by f of it.  SQLAlchemy
query.first() returns the row object and the handlers mutate that row in
place before committing. -/
def updateFirst (p : α → Bool) (f : α → α) : List α → List α
  | [] => []
  | x :: xs => if p x then f x :: xs else x :: updateFirst p f xs

/-- The apostrophe character, as a string. -/
def apos : String := String.singleton (Char.ofNat 39)

/-- The message "Couldn't verify signature" from admin.py line 88. -/
def couldnt_verify_msg : String := "Couldn" ++ apos ++ "t verify signature"

/-- admin.py verify_auth_token: resolve the Authorization bearer token to an
operator.  Returns Except.error () where the source would raise an uncaught
exception (strptime applied to a None expiry). -/
def verify_auth_token (st : ServerState) (req : HttpRequest) (now : Nat) :
    Except Unit (Option Operator) :=
  match headerGet req.headers "Authorization" with
  | none => Except.ok none
  | some token =>
    if pyStartswith token "Bearer " then
      match st.operators.find? (fun o => o.auth_token == some (pyDrop token 7)) with
      | none => Except.ok none
      | some operator =>
        match operator.auth_token_expiry with
        | none => Except.error ()
        | some token_exp =>
          if token_exp < now then Except.ok none else Except.ok (some operator)
    else Except.ok none

/-- The body/status returned by the verified decorator on rejection. -/
def not_authenticated_response : HttpResponse :=
  (mkObj [("status", JVal.jbool false), ("msg", JVal.jstr "Not authenticated")], 401)

/-- admin.py verified decorator: run the wrapped handler only when
verify_auth_token resolves an operator; otherwise reject with 401 and leave
the store untouched. -/
def verified (handler : Operator → Except Unit (HttpResponse × ServerState))
    (st : ServerState) (req : HttpRequest) (now : Nat) :
    Except Unit (HttpResponse × ServerState) :=
  match verify_auth_token st req now with
  | Except.error e => Except.error e
  | Except.ok none => Except.ok (not_authenticated_response, st)
  | Except.ok (some operator) => handler operator

/-- The 200 body of request_token (admin.py lines 124-135). -/
def token_success_response (token : JVal) : HttpResponse :=
  (mkObj [("status", JVal.jbool true), ("token", token), ("rmq_queue", JVal.jstr ""),
          ("rmq_host", JVal.jstr ""), ("rmq_port", JVal.jnum 1)], 200)

/-- Six hours in seconds (timedelta(hours=6)). -/
def sixHours : Nat := 6 * 3600

/-- The store after the token-minting branch of request_token: the operator
row found by username carries the fresh token with expiry now + 6 hours. -/
def mint_state (now : Nat) (fresh : String) (xid : String)
    (st : ServerState) : ServerState :=
  { st with
      operators :=
        updateFirst (fun o => o.username == xid)
          (fun o =>
            { o with
                auth_token := some fresh,
                auth_token_expiry := some (now + sixHours) })
          st.operators }

/-- The token-minting else-branch of request_token (admin.py lines 113-120):
store a fresh token against the operator row found by username, with expiry
now + 6 hours, and answer with the fresh token. -/
def request_token_mint (now : Nat) (fresh : String) (xid : String)
    (st : ServerState) : HttpResponse × ServerState :=
  (token_success_response (JVal.jstr fresh), mint_state now fresh xid st)

/-- admin.py request_token (GET /op/auth/token/request).  decrypt_and_verify
is the crypto routine from maliketh.crypto.ec (outside the provided sources),
now is datetime.now(), fresh is the value random_hex(128) would produce. -/
def request_token (decrypt_and_verify : String → Operator → Option String)
    (now : Nat) (fresh : String) (st : ServerState) (req : HttpRequest) :
    HttpResponse × ServerState :=
  match headerGet req.headers "X-ID", headerGet req.headers "X-Signature" with
  | some xid, some xsig =>
    if xid.length == 0 || xsig.length == 0 then
      ((mkObj [("status", JVal.jbool false), ("message", JVal.jstr "Unknown operator key")], 400), st)
    else
      match st.operators.find? (fun o => o.username == xid) with
      | none =>
        ((mkObj [("status", JVal.jbool false), ("message", JVal.jstr "Unknown operator")], 400), st)
      | some operator =>
        match decrypt_and_verify xsig operator with
        | none =>
          ((mkObj [("status", JVal.jbool false), ("msg", JVal.jstr couldnt_verify_msg)], 400), st)
        | some original_message =>
          if original_message != operator.login_secret then
            ((mkObj [("status", JVal.jbool false), ("msg", JVal.jstr "Unable to verify signature")], 400), st)
          else
            match operator.auth_token_expiry with
            | some token_exp =>
              if now < token_exp then
                (token_success_response (optStr operator.auth_token), st)
              else
                request_token_mint now fresh xid st
            | none =>
              request_token_mint now fresh xid st
  | _, _ =>
    ((mkObj [("status", JVal.jbool false), ("message", JVal.jstr "Unknown operator key")], 400), st)

/-- Modelled from the spec: Task.new_task lives in maliketh/models.py, which is
not among the provided sources.  Per spec section 4.4 it allocates a new unique
task id and stores the task with output = none; fresh_id and now stand for the
generated id and creation timestamp. -/
def Task.new_task (fresh_id : String) (now : Nat) (operator_id : String)
    (implant_id opcode args : JVal) : Task :=
  { task_id := fresh_id, operator_id := operator_id, implant_id := implant_id,
    opcode := opcode, args := args, output := none, created_at := now }

/-- Modelled from the spec: Task.toJSON lives in maliketh/models.py, which is
not among the provided sources.  It renders the task row's attributes (spec
section 3, Task) as a JSON object. -/
def Task.toJSON (t : Task) : JVal :=
  mkObj [("task_id", JVal.jstr t.task_id), ("operator_id", JVal.jstr t.operator_id),
         ("implant_id", t.implant_id), ("opcode", t.opcode), ("args", t.args),
         ("output", optStr t.output), ("created_at", JVal.jnum t.created_at)]

/-- admin.py add_task (POST /op/tasks/add), after the verified decorator has
resolved the operator.  fresh_id/now stand for the task id and creation time
generated inside Task.new_task.  The Python source renders the missing-field
names with a set difference whose iteration order is unspecified; the model
keeps them in required_fields order. -/
def add_task (fresh_id : String) (now : Nat) (operator : Operator)
    (st : ServerState) (req : HttpRequest) : HttpResponse × ServerState :=
  match req.json with
  | none =>
    ((mkObj [("status", JVal.jbool false), ("msg", JVal.jstr "Invalid request, no JSON body")], 400), st)
  | some task =>
    let required_fields := ["implant_id", "opcode", "args"]
    match jsonGet task "implant_id", jsonGet task "opcode", jsonGet task "args" with
    | some implant_id, some opcode, some args =>
      let t := Task.new_task fresh_id now operator.username implant_id opcode args
      ((mkObj [("status", JVal.jbool true), ("task", t.toJSON)], 200),
       { st with tasks := st.tasks ++ [t] })
    | _, _, _ =>
      ((mkObj [("status", JVal.jbool false),
               ("msg", JVal.jstr ("Invalid task, missing fields: " ++
                 String.intercalate ", "
                   (required_fields.filter (fun x => (jsonGet task x).isNone))))], 400), st)

/-- The body/status for an unknown task id. -/
def unknown_task_response : HttpResponse :=
  (mkObj [("status", JVal.jbool false), ("msg", JVal.jstr "Unknown task")], 400)

/-- The body/status for a task owned by another operator. -/
def unauthorized_response : HttpResponse :=
  (mkObj [("status", JVal.jbool false), ("msg", JVal.jstr "Unauthorized")], 401)

/-- admin.py get_task_result (GET /op/tasks/result/<task_id>), after the
verified decorator has resolved the operator. -/
def get_task_result (operator : Operator) (task_id : String) (st : ServerState) :
    HttpResponse × ServerState :=
  match st.tasks.find? (fun t => t.task_id == task_id) with
  | none => (unknown_task_response, st)
  | some task =>
    if task.operator_id != operator.username then
      (unauthorized_response, st)
    else
      ((mkObj [("status", JVal.jbool true), ("result", optStr task.output)], 200), st)

/-- admin.py delete_task (DELETE /op/tasks/delete/<task_id>), after the
verified decorator has resolved the operator.  db.session.delete removes the
row object returned by first(), i.e. the first row with that task id. -/
def delete_task (operator : Operator) (task_id : String) (st : ServerState) :
    HttpResponse × ServerState :=
  match st.tasks.find? (fun t => t.task_id == task_id) with
  | none => (unknown_task_response, st)
  | some task =>
    if task.operator_id != operator.username then
      (unauthorized_response, st)
    else
      ((mkObj [("status", JVal.jbool true)], 200),
       { st with tasks := st.tasks.eraseP (fun t => t.task_id == task_id) })

/-- One entry of the client-side Opcodes enum (src/client/opcodes.py). -/
structure OpcodeEntry where
  name : String
  value : Nat
deriving DecidableEq

/-- The Opcodes enumeration, in declaration order. -/
def Opcodes.entries : List OpcodeEntry :=
  [⟨"CMD", 0x01⟩, ⟨"SELFDESTRUCT", 0x02⟩, ⟨"SYSINFO", 0x03⟩, ⟨"SLEEP", 0x04⟩,
   ⟨"UPDATE_CONFIG", 0x05⟩, ⟨"DOWNLOAD", 0x06⟩, ⟨"UPLOAD", 0x07⟩, ⟨"INJECT", 0x08⟩]

/-- opcodes.py Opcodes.get_by_name: first enum member whose name matches
exactly or case-insensitively; returns its value. -/
def Opcodes.get_by_name (name : String) : Option Nat :=
  (Opcodes.entries.find? (fun o => o.name == name || pyLower o.name == pyLower name)).map
    (fun o => o.value)

/-- opcodes.py Opcodes.get_by_value: first enum member with the given value;
returns its name. -/
def Opcodes.get_by_value (value : Nat) : Option String :=
  (Opcodes.entries.find? (fun o => o.value == value)).map (fun o => o.name)

/-- One implant summary as consumed by comms.py implant_exists (only the
implant_id field is read). -/
structure ImplantSummary where
  implant_id : String
deriving DecidableEq

/-- comms.py implant_exists: linear scan, true on the first registered implant
whose id starts with the given id prefix. -/
def implant_exists (implants : List ImplantSummary) ( id_prefix : String) : Bool :=
  implants.any (fun implant => pyStartswith implant.implant_id id_prefix)

/-- The path of the URL built by comms.py get_task_result. -/
def client_get_task_result_path (task_id : String) : String :=
  "/op/tasks/results/" ++ task_id

/-- The fixed part of the route registered for admin.py get_task_result
("/op/tasks/result/<task_id>"). -/
def admin_task_result_route_base : String := "/op/tasks/result/"

/-- Matching of a Flask route of shape base ++ "<task_id>" against a request
path: the default string converter binds a nonempty segment containing no
slash.  Returns the bound segment on a match. -/
def flask_route_match (base : String) (path : String) : Option String :=
  if pyStartswith path base then
    let rest := pyDrop path base.length
    if rest.length != 0 && !(rest.data.contains (Char.ofNat 47)) then some rest else none
  else none

/-- comms.py OperatorConfig fields used by the token helpers (config.py is
outside the provided sources; fields per its uses in comms.py). -/
structure OperatorConfig where
  c2 : String
  c2_port : Nat
  name : String
  auth_token : Option String
deriving DecidableEq

/-- The request built by comms.py check_auth_token: the bearer token is placed
in an "Authentication" header (not "Authorization"). -/
def check_auth_token_request (config : OperatorConfig) : HttpRequest :=
  { headers := [("Authentication", "Bearer " ++ pyFormatOpt config.auth_token)],
    json := none }

/-- Modelled from the spec: the token-status endpoint GET /op/auth/token/status
appears in the spec's interface table (bearer auth, response of shape
status bool) but its handler is not among the provided sources.  It is
modelled as a verified-wrapped handler answering status true. -/
def token_status_endpoint (st : ServerState) (req : HttpRequest) (now : Nat) :
    Except Unit (HttpResponse × ServerState) :=
  verified (fun _ => Except.ok ((mkObj [("status", JVal.jbool true)], 200), st)) st req now

/-- comms.py check_auth_token: send the status request and return the "status"
field of the JSON response (a missing field would raise, hence Except). -/
def check_auth_token (config : OperatorConfig) (st : ServerState) (now : Nat) :
    Except Unit JVal :=
  match token_status_endpoint st (check_auth_token_request config) now with
  | Except.error e => Except.error e
  | Except.ok ((body, _), _) =>
    match jget body "status" with
    | none => Except.error ()
    | some v => Except.ok v

/-- comms.py ensure_token: re-authenticate when no token is stored or the
status check is falsy.  fresh_auth stands for the token that
handle_server_auth (the full challenge flow) would return. -/
def ensure_token (config : OperatorConfig) (st : ServerState) (now : Nat)
    (fresh_auth : String) : Except Unit OperatorConfig :=
  let config1 :=
    match config.auth_token with
    | none => { config with auth_token := some fresh_auth }
    | some t =>
      if t.length == 0 then { config with auth_token := some fresh_auth } else config
  match check_auth_token config1 st now with
  | Except.error e => Except.error e
  | Except.ok v =>
    Except.ok (if pyTruthy v then config1 else { config1 with auth_token := some fresh_auth })

/-- C7: the client's get_task_result requests GET /op/tasks/results/{task_id},
but the admin listener registers the handler at /op/tasks/result/<task_id>.
At task id t1 the client-built path does not match the server route (the
default converter cannot swallow the slash in "s/t1"), while the path the
server actually serves does; so the claimed client/server agreement fails on
the code, the server route deviating from the spec's interface table. -/
theorem claim_C7_route_mismatch :
    client_get_task_result_path "t1" = "/op/tasks/results/t1" ∧
    flask_route_match admin_task_result_route_base (client_get_task_result_path "t1") = none ∧
    flask_route_match admin_task_result_route_base "/op/tasks/result/t1" = some "t1" := by
  decide

/-- C8: implant_exists is true exactly when some registered implant id starts
with the given id prefix, and on the registry holding abc123 and abcdef it
answers true for abc and false for xyz. -/
theorem claim_C8_implant_exists :
    (∀ (implants : List ImplantSummary) (p : String),
      implant_exists implants p = true ↔
        ∃ i, i ∈ implants ∧ pyStartswith i.implant_id p = true) ∧
    implant_exists [⟨"abc123"⟩, ⟨"abcdef"⟩] "abc" = true ∧
    implant_exists [⟨"abc123"⟩, ⟨"abcdef"⟩] "xyz" = false := by
  refine ⟨?_, by decide, by decide⟩
  intro implants p
  simp [implant_exists]

/-- C9: a request whose Authorization header is absent or does not begin with
"Bearer " resolves to no operator, and whenever token resolution fails the
verified wrapper answers 401 Not authenticated with the store unchanged,
independently of the wrapped handler (which therefore never runs). -/
theorem claim_C9_auth_gate :
    (∀ (st : ServerState) (req : HttpRequest) (now : Nat),
      headerGet req.headers "Authorization" = none →
      verify_auth_token st req now = Except.ok none) ∧
    (∀ (st : ServerState) (req : HttpRequest) (now : Nat) (s : String),
      headerGet req.headers "Authorization" = some s →
      pyStartswith s "Bearer " = false →
      verify_auth_token st req now = Except.ok none) ∧
    (∀ (st : ServerState) (req : HttpRequest) (now : Nat)
      (handler : Operator → Except Unit (HttpResponse × ServerState)),
      verify_auth_token st req now = Except.ok none →
      verified handler st req now = Except.ok (not_authenticated_response, st)) := by
  refine ⟨?_, ?_, ?_⟩
  · intro st req now h
    simp [verify_auth_token, h]
  · intro st req now s h hb
    simp [verify_auth_token, h, hb]
  · intro st req now handler h
    simp [verified, h]

/-- C9 witness: on a concrete request with no Authorization header the wrapper
rejects with 401 and leaves the concrete store unchanged. -/
theorem claim_C9_witness :
    verified (fun _ => Except.ok ((JVal.jnull, 200), ⟨[], []⟩))
        ⟨[⟨"alice", "sec", some "tok", some 100⟩], []⟩
        ⟨[("Authentication", "Bearer tok")], none⟩ 0 =
      Except.ok (not_authenticated_response, ⟨[⟨"alice", "sec", some "tok", some 100⟩], []⟩) :=
  claim_C9_auth_gate.2.2 ⟨[⟨"alice", "sec", some "tok", some 100⟩], []⟩
    ⟨[("Authentication", "Bearer tok")], none⟩ 0 _ (by decide)

/-- C1: counterexample.  Two token-request runs that both fail authentication —
one naming an unknown operator, one whose signature fails decrypt-and-verify —
both answer 400, yet their response bodies differ, so failing runs do not
yield equal response bodies. -/
theorem claim_C1_counterexample :
    (request_token (fun _ _ => none) 0 "f" ⟨[⟨"alice", "sec", none, none⟩], []⟩
        ⟨[("X-ID", "bob"), ("X-Signature", "z")], none⟩).1.2 = 400 ∧
    (request_token (fun _ _ => none) 0 "f" ⟨[⟨"alice", "sec", none, none⟩], []⟩
        ⟨[("X-ID", "alice"), ("X-Signature", "z")], none⟩).1.2 = 400 ∧
    (request_token (fun _ _ => none) 0 "f" ⟨[⟨"alice", "sec", none, none⟩], []⟩
        ⟨[("X-ID", "bob"), ("X-Signature", "z")], none⟩).1.1 ≠
      (request_token (fun _ _ => none) 0 "f" ⟨[⟨"alice", "sec", none, none⟩], []⟩
        ⟨[("X-ID", "alice"), ("X-Signature", "z")], none⟩).1.1 := by
  decide

/-- C1 (amended): every run of request_token failing one of the three
authentication checks answers status false with HTTP 400 and an unchanged
store, but the body names the failed check: an unknown X-ID yields
"Unknown operator" under key message, a failed decrypt-and-verify yields
"Couldn't verify signature" under key msg, and a plaintext differing from the
stored login secret yields "Unable to verify signature" under key msg — so
the three failure kinds are mutually distinguishable from the response. -/
theorem claim_C1_amended (dav : String → Operator → Option String) (now : Nat)
    (fresh : String) (st : ServerState) (req : HttpRequest) (xid xsig : String)
    (hx : headerGet req.headers "X-ID" = some xid)
    (hs : headerGet req.headers "X-Signature" = some xsig)
    (hx0 : xid.length ≠ 0) (hs0 : xsig.length ≠ 0) :
    (st.operators.find? (fun o => o.username == xid) = none →
      request_token dav now fresh st req =
        ((mkObj [("status", JVal.jbool false), ("message", JVal.jstr "Unknown operator")], 400), st)) ∧
    (∀ operator, st.operators.find? (fun o => o.username == xid) = some operator →
      dav xsig operator = none →
      request_token dav now fresh st req =
        ((mkObj [("status", JVal.jbool false), ("msg", JVal.jstr couldnt_verify_msg)], 400), st)) ∧
    (∀ operator m, st.operators.find? (fun o => o.username == xid) = some operator →
      dav xsig operator = some m → m ≠ operator.login_secret →
      request_token dav now fresh st req =
        ((mkObj [("status", JVal.jbool false), ("msg", JVal.jstr "Unable to verify signature")], 400), st)) := by
  have hx0b : (xid.length == 0) = false := beq_eq_false_iff_ne.mpr hx0
  have hs0b : (xsig.length == 0) = false := beq_eq_false_iff_ne.mpr hs0
  refine ⟨?_, ?_, ?_⟩
  · intro hfind
    simp [request_token, hx, hs, hx0b, hs0b, hfind]
  · intro operator hfind hdav
    simp [request_token, hx, hs, hx0b, hs0b, hfind, hdav]
  · intro operator m hfind hdav hm
    simp [request_token, hx, hs, hx0b, hs0b, hfind, hdav, hm]

/-- C1 witness: the amended theorem applied to a concrete unknown-operator
run. -/
theorem claim_C1_witness :
    request_token (fun _ _ => none) 0 "f" ⟨[⟨"alice", "sec", none, none⟩], []⟩
        ⟨[("X-ID", "bob"), ("X-Signature", "z")], none⟩ =
      ((mkObj [("status", JVal.jbool false), ("message", JVal.jstr "Unknown operator")], 400),
       ⟨[⟨"alice", "sec", none, none⟩], []⟩) :=
  (claim_C1_amended (fun _ _ => none) 0 "f" ⟨[⟨"alice", "sec", none, none⟩], []⟩
      ⟨[("X-ID", "bob"), ("X-Signature", "z")], none⟩ "bob" "z"
      (by decide) (by decide) (by decide) (by decide)).1 (by decide)

/-- C2: counterexample.  An authenticated add-task request whose opcode 999 is
not a member of the Opcodes enumeration is not rejected: add_task answers 200
with status true and stores the task. -/
theorem claim_C2_counterexample :
    Opcodes.get_by_value 999 = none ∧
    add_task "t1" 0 ⟨"alice", "sec", some "tok", some 100⟩ ⟨[], []⟩
        ⟨[], some [("implant_id", JVal.jstr "abc123"), ("opcode", JVal.jnum 999),
                   ("args", JVal.jnull)]⟩ =
      ((mkObj [("status", JVal.jbool true),
               ("task", Task.toJSON ⟨"t1", "alice", JVal.jstr "abc123", JVal.jnum 999,
                                     JVal.jnull, none, 0⟩)], 200),
       ⟨[], [⟨"t1", "alice", JVal.jstr "abc123", JVal.jnum 999, JVal.jnull, none, 0⟩]⟩) := by
  decide

/-- C2 (amended): add_task validates only the presence of implant_id, opcode
and args.  A missing JSON body or missing fields are rejected with a
structured error naming the missing fields and no task is created; when all
three are present the opcode is not checked against the Opcodes enumeration —
any opcode value is accepted — and a task with output = none is stored and
returned. -/
theorem claim_C2_amended (fresh_id : String) (now : Nat) (operator : Operator)
    (st : ServerState) (req : HttpRequest) :
    (req.json = none →
      add_task fresh_id now operator st req =
        ((mkObj [("status", JVal.jbool false),
                 ("msg", JVal.jstr "Invalid request, no JSON body")], 400), st)) ∧
    (∀ body, req.json = some body →
      (∃ x, x ∈ ["implant_id", "opcode", "args"] ∧ jsonGet body x = none) →
      add_task fresh_id now operator st req =
        ((mkObj [("status", JVal.jbool false),
                 ("msg", JVal.jstr ("Invalid task, missing fields: " ++
                   String.intercalate ", "
                     (["implant_id", "opcode", "args"].filter
                       (fun x => (jsonGet body x).isNone))))], 400), st)) ∧
    (∀ body implant_id opcode args, req.json = some body →
      jsonGet body "implant_id" = some implant_id →
      jsonGet body "opcode" = some opcode →
      jsonGet body "args" = some args →
      add_task fresh_id now operator st req =
        ((mkObj [("status", JVal.jbool true),
                 ("task", Task.toJSON ⟨fresh_id, operator.username, implant_id, opcode,
                                       args, none, now⟩)], 200),
         { st with tasks := st.tasks ++
             [⟨fresh_id, operator.username, implant_id, opcode, args, none, now⟩] })) := by
  refine ⟨?_, ?_, ?_⟩
  · intro h
    simp [add_task, h]
  · intro body hb hmiss
    cases h1 : jsonGet body "implant_id" <;> cases h2 : jsonGet body "opcode" <;>
      cases h3 : jsonGet body "args"
    all_goals simp [add_task, hb, h1, h2, h3]
    rcases hmiss with ⟨x, hmem, hnone⟩
    simp only [List.mem_cons, List.mem_singleton, List.not_mem_nil] at hmem
    rcases hmem with rfl | rfl | rfl | hfalse
    · rw [h1] at hnone; exact Option.noConfusion hnone
    · rw [h2] at hnone; exact Option.noConfusion hnone
    · rw [h3] at hnone; exact Option.noConfusion hnone
    · exact hfalse.elim
  · intro body implant_id opcode args hb h1 h2 h3
    simp [add_task, hb, h1, h2, h3, Task.new_task]

/-- C2 witness: the amended theorem's missing-field branch applied to a
concrete request lacking opcode and args. -/
theorem claim_C2_witness :
    add_task "t1" 0 ⟨"alice", "sec", some "tok", some 100⟩ ⟨[], []⟩
        ⟨[], some [("implant_id", JVal.jstr "abc123")]⟩ =
      ((mkObj [("status", JVal.jbool false),
               ("msg", JVal.jstr "Invalid task, missing fields: opcode, args")], 400),
       ⟨[], []⟩) := by
  have h := (claim_C2_amended "t1" 0 ⟨"alice", "sec", some "tok", some 100⟩ ⟨[], []⟩
      ⟨[], some [("implant_id", JVal.jstr "abc123")]⟩).2.1
      [("implant_id", JVal.jstr "abc123")] rfl ⟨"opcode", by decide, by decide⟩
  rw [h]
  decide

/-- C5: get_task_result and delete_task check existence before ownership: an
unknown task id answers the Unknown-task failure, an existing task owned by a
different operator answers the fixed Unauthorized failure (a body independent
of the task, hence revealing none of its contents) with no deletion, the owner
obtains the result respectively the deletion, and the two failure outcomes are
distinct. -/
theorem claim_C5_ownership (operator : Operator) (task_id : String) (st : ServerState) :
    (st.tasks.find? (fun t => t.task_id == task_id) = none →
      get_task_result operator task_id st = (unknown_task_response, st) ∧
      delete_task operator task_id st = (unknown_task_response, st)) ∧
    (∀ task, st.tasks.find? (fun t => t.task_id == task_id) = some task →
      task.operator_id ≠ operator.username →
      get_task_result operator task_id st = (unauthorized_response, st) ∧
      delete_task operator task_id st = (unauthorized_response, st)) ∧
    (∀ task, st.tasks.find? (fun t => t.task_id == task_id) = some task →
      task.operator_id = operator.username →
      get_task_result operator task_id st =
        ((mkObj [("status", JVal.jbool true), ("result", optStr task.output)], 200), st) ∧
      delete_task operator task_id st =
        ((mkObj [("status", JVal.jbool true)], 200),
         { st with tasks := st.tasks.eraseP (fun t => t.task_id == task_id) })) ∧
    unknown_task_response ≠ unauthorized_response := by
  refine ⟨?_, ?_, ?_, by decide⟩
  · intro hfind
    exact ⟨by simp [get_task_result, hfind], by simp [delete_task, hfind]⟩
  · intro task hfind hne
    exact ⟨by simp [get_task_result, hfind, hne], by simp [delete_task, hfind, hne]⟩
  · intro task hfind heq
    exact ⟨by simp [get_task_result, hfind, heq], by simp [delete_task, hfind, heq]⟩

/-- C5 witness: operator bob requesting alice's task t1 gets the Unauthorized
failure from both operations, with the store unchanged. -/
theorem claim_C5_witness :
    get_task_result ⟨"bob", "bs", some "btok", some 100⟩ "t1"
        ⟨[], [⟨"t1", "alice", JVal.jstr "i", JVal.jnum 1, JVal.jnull, some "out", 0⟩]⟩ =
      (unauthorized_response,
       ⟨[], [⟨"t1", "alice", JVal.jstr "i", JVal.jnum 1, JVal.jnull, some "out", 0⟩]⟩) ∧
    delete_task ⟨"bob", "bs", some "btok", some 100⟩ "t1"
        ⟨[], [⟨"t1", "alice", JVal.jstr "i", JVal.jnum 1, JVal.jnull, some "out", 0⟩]⟩ =
      (unauthorized_response,
       ⟨[], [⟨"t1", "alice", JVal.jstr "i", JVal.jnum 1, JVal.jnull, some "out", 0⟩]⟩) :=
  (claim_C5_ownership ⟨"bob", "bs", some "btok", some 100⟩ "t1"
      ⟨[], [⟨"t1", "alice", JVal.jstr "i", JVal.jnum 1, JVal.jnull, some "out", 0⟩]⟩).2.1
    ⟨"t1", "alice", JVal.jstr "i", JVal.jnum 1, JVal.jnull, some "out", 0⟩
    (by decide) (by decide)

/-- updateFirst preserves the first match of a predicate that f leaves
invariant: if find? returned a, after the update it returns f a. -/
theorem find?_updateFirst {α : Type} {p : α → Bool} {f : α → α} {l : List α} {a : α}
    (hf : ∀ x, p (f x) = p x) (h : l.find? p = some a) :
    (updateFirst p f l).find? p = some (f a) := by
  induction l with
  | nil => simp [List.find?] at h
  | cons x xs ih =>
    by_cases hx : p x
    · rw [List.find?_cons_of_pos _ hx] at h
      cases h
      rw [updateFirst, if_pos hx]
      exact List.find?_cons_of_pos _ (by rw [hf]; exact hx)
    · rw [List.find?_cons_of_neg _ hx] at h
      rw [updateFirst, if_neg hx]
      rw [List.find?_cons_of_neg _ hx]
      exact ih h

/-- C4: a run of request_token that authenticates and finds no currently valid
token persists the fresh token with expiry now + 6 hours and returns it; a
second authenticated run before that expiry returns the identical token and
leaves the store unchanged (idempotent re-authentication). -/
theorem claim_C4_idempotent (dav : String → Operator → Option String)
    (now1 now2 : Nat) (fresh1 fresh2 : String) (st : ServerState)
    (req : HttpRequest) (xid xsig : String) (operator : Operator)
    (hx : headerGet req.headers "X-ID" = some xid)
    (hs : headerGet req.headers "X-Signature" = some xsig)
    (hx0 : xid.length ≠ 0) (hs0 : xsig.length ≠ 0)
    (hfind : st.operators.find? (fun o => o.username == xid) = some operator)
    (hdav : ∀ tok texp,
      dav xsig { operator with auth_token := tok, auth_token_expiry := texp } =
        some operator.login_secret)
    (hexp : operator.auth_token_expiry = none ∨
      ∃ e, operator.auth_token_expiry = some e ∧ ¬ now1 < e)
    (hre : now2 < now1 + sixHours) :
    request_token dav now1 fresh1 st req =
      (token_success_response (JVal.jstr fresh1), mint_state now1 fresh1 xid st) ∧
    (mint_state now1 fresh1 xid st).operators =
      updateFirst (fun o => o.username == xid)
        (fun o =>
          { o with
              auth_token := some fresh1,
              auth_token_expiry := some (now1 + sixHours) })
        st.operators ∧
    request_token dav now2 fresh2 (mint_state now1 fresh1 xid st) req =
      (token_success_response (JVal.jstr fresh1), mint_state now1 fresh1 xid st) := by
  have hx0b : (xid.length == 0) = false := beq_eq_false_iff_ne.mpr hx0
  have hs0b : (xsig.length == 0) = false := beq_eq_false_iff_ne.mpr hs0
  have hdav1 : dav xsig operator = some operator.login_secret := hdav operator.auth_token
    operator.auth_token_expiry
  refine ⟨?_, rfl, ?_⟩
  · rcases hexp with hnone | ⟨e, he, hlt⟩
    · simp [request_token, hx, hs, hx0b, hs0b, hfind, hdav1, hnone, request_token_mint]
    · simp [request_token, hx, hs, hx0b, hs0b, hfind, hdav1, he, hlt, request_token_mint]
  · have hfind2 : (mint_state now1 fresh1 xid st).operators.find?
        (fun o => o.username == xid) =
        some { operator with auth_token := some fresh1,
                             auth_token_expiry := some (now1 + sixHours) } :=
      find?_updateFirst (fun x => rfl) hfind
    have hdav2 : dav xsig
        { operator with
            auth_token := some fresh1,
            auth_token_expiry := some (now1 + sixHours) } = some operator.login_secret :=
      hdav (some fresh1) (some (now1 + sixHours))
    simp [request_token, hx, hs, hx0b, hs0b, hfind2, hdav2, hre, optStr]

/-- C4 witness: the theorem applied to a concrete operator with no stored
token: the first call at time 0 stores token A with expiry 21600 and returns
it, and the second call at time 1 returns token A again unchanged. -/
theorem claim_C4_witness :
    request_token (fun _ o => some o.login_secret) 0 "A"
        ⟨[⟨"alice", "sec", none, none⟩], []⟩
        ⟨[("X-ID", "alice"), ("X-Signature", "z")], none⟩ =
      (token_success_response (JVal.jstr "A"),
       ⟨[⟨"alice", "sec", some "A", some 21600⟩], []⟩) ∧
    request_token (fun _ o => some o.login_secret) 1 "B"
        ⟨[⟨"alice", "sec", some "A", some 21600⟩], []⟩
        ⟨[("X-ID", "alice"), ("X-Signature", "z")], none⟩ =
      (token_success_response (JVal.jstr "A"),
       ⟨[⟨"alice", "sec", some "A", some 21600⟩], []⟩) := by
  have h := claim_C4_idempotent (fun _ o => some o.login_secret) 0 1 "A" "B"
    ⟨[⟨"alice", "sec", none, none⟩], []⟩
    ⟨[("X-ID", "alice"), ("X-Signature", "z")], none⟩ "alice" "z"
    ⟨"alice", "sec", none, none⟩ (by decide) (by decide) (by decide) (by decide)
    (by decide) (fun tok texp => rfl) (Or.inl rfl) (by decide)
  have hms : mint_state 0 "A" "alice" ⟨[⟨"alice", "sec", none, none⟩], []⟩ =
      ⟨[⟨"alice", "sec", some "A", some 21600⟩], []⟩ := by decide
  rw [hms] at h
  exact ⟨h.1, h.2.2⟩

/-- C3: counterexample.  A token presented at exactly its stored expiry
(now = expiry = 100) is accepted by verify_auth_token, where the claim
requires rejection when now equals the expiry. -/
theorem claim_C3_counterexample :
    verify_auth_token ⟨[⟨"alice", "sec", some "tok", some 100⟩], []⟩
        ⟨[("Authorization", "Bearer tok")], none⟩ 100 =
      Except.ok (some ⟨"alice", "sec", some "tok", some 100⟩) := by
  decide

/-- C3 (amended): in a store whose held tokens are pairwise distinct, token
validation resolves an operator exactly when the Authorization header carries
a Bearer token equal to some operator's stored token whose stored expiry is
greater than or equal to now — so validation fails only for now strictly past
the expiry, and the boundary now = expiry is accepted, not rejected. -/
theorem claim_C3_amended (st : ServerState) (req : HttpRequest) (now : Nat)
    (huniq : ∀ o1 o2, o1 ∈ st.operators → o2 ∈ st.operators →
      o1.auth_token = o2.auth_token → o1.auth_token ≠ none → o1 = o2) :
    (∃ operator, verify_auth_token st req now = Except.ok (some operator)) ↔
    (∃ s operator e, headerGet req.headers "Authorization" = some s ∧
      pyStartswith s "Bearer " = true ∧ operator ∈ st.operators ∧
      operator.auth_token = some (pyDrop s 7) ∧
      operator.auth_token_expiry = some e ∧ now ≤ e) := by
  constructor
  · rintro ⟨operator, hop⟩
    simp only [verify_auth_token] at hop
    cases hh : headerGet req.headers "Authorization" with
    | none => simp only [hh] at hop; simp at hop
    | some s =>
      simp only [hh] at hop
      by_cases hsw : pyStartswith s "Bearer " = true
      · rw [if_pos hsw] at hop
        cases hf : st.operators.find? (fun o => o.auth_token == some (pyDrop s 7)) with
        | none => simp only [hf] at hop; simp at hop
        | some o1 =>
          simp only [hf] at hop
          cases he : o1.auth_token_expiry with
          | none => simp only [he] at hop; simp at hop
          | some e =>
            simp only [he] at hop
            by_cases hlt : e < now
            · rw [if_pos hlt] at hop; simp at hop
            · rw [if_neg hlt] at hop
              have ho1 : o1 = operator := by simpa using hop
              subst ho1
              have htok : o1.auth_token = some (pyDrop s 7) := by
                simpa using List.find?_some hf
              exact ⟨s, o1, e, rfl, hsw, List.mem_of_find?_eq_some hf, htok, he,
                Nat.le_of_not_lt hlt⟩
      · rw [if_neg hsw] at hop
        simp at hop
  · rintro ⟨s, operator, e, hh, hsw, hmem, htok, hexp, hle⟩
    simp only [verify_auth_token, hh]
    rw [if_pos hsw]
    have hissome : (st.operators.find? (fun o => o.auth_token == some (pyDrop s 7))).isSome :=
      List.find?_isSome.mpr ⟨operator, hmem, by simp [htok]⟩
    obtain ⟨o1, hf⟩ := Option.isSome_iff_exists.mp hissome
    have htok1 : o1.auth_token = some (pyDrop s 7) := by
      simpa using List.find?_some hf
    have ho1 : o1 = operator :=
      huniq o1 operator (List.mem_of_find?_eq_some hf) hmem (htok1.trans htok.symm)
        (by rw [htok1]; simp)
    subst ho1
    simp only [hf, hexp]
    rw [if_neg (Nat.not_lt.mpr hle)]
    exact ⟨o1, rfl⟩

/-- C3 witness: the amended theorem's right-to-left direction applied at the
boundary now = expiry on a concrete store. -/
theorem claim_C3_witness :
    ∃ operator, verify_auth_token ⟨[⟨"alice", "sec", some "tok", some 100⟩], []⟩
        ⟨[("Authorization", "Bearer tok")], none⟩ 100 = Except.ok (some operator) :=
  (claim_C3_amended ⟨[⟨"alice", "sec", some "tok", some 100⟩], []⟩
      ⟨[("Authorization", "Bearer tok")], none⟩ 100
      (fun o1 o2 h1 h2 _ _ =>
        (List.mem_singleton.mp h1).trans (List.mem_singleton.mp h2).symm)).mpr
    ⟨"Bearer tok", ⟨"alice", "sec", some "tok", some 100⟩, 100, by decide, by decide,
     by decide, by decide, by decide, by decide⟩

/-- The Opcodes.get_by_name loop predicate is false on an enum member whose
lowered name differs from the lowered query. -/
theorem opcode_pred_false (N s : String) (h : pyLower N ≠ pyLower s) :
    (N == s || pyLower N == pyLower s) = false := by
  have hN : (N == s) = false := beq_eq_false_iff_ne.mpr (fun e => h (by rw [e]))
  have hL : (pyLower N == pyLower s) = false := beq_eq_false_iff_ne.mpr h
  rw [hN, hL]
  decide

/-- The Opcodes.get_by_name loop predicate is true on an enum member whose
lowered name equals the lowered query. -/
theorem opcode_pred_true (N s : String) (h : pyLower N = pyLower s) :
    (N == s || pyLower N == pyLower s) = true := by
  have hL : (pyLower N == pyLower s) = true := beq_iff_eq.mpr h
  rw [hL, Bool.or_true]

/-- C6: for every entry of the Opcodes enumeration, name to value to name is
the identity; lookup by name succeeds for any string agreeing with the entry
name up to case; and the enumeration is exactly CMD=1, SELFDESTRUCT=2,
SYSINFO=3, SLEEP=4, UPDATE_CONFIG=5, DOWNLOAD=6, UPLOAD=7, INJECT=8. -/
theorem claim_C6_opcode_roundtrip :
    (∀ o, o ∈ Opcodes.entries →
      (Opcodes.get_by_name o.name).bind Opcodes.get_by_value = some o.name) ∧
    (∀ s o, o ∈ Opcodes.entries → pyLower s = pyLower o.name →
      Opcodes.get_by_name s = some o.value) ∧
    Opcodes.entries.map (fun o => (o.name, o.value)) =
      [("CMD", 1), ("SELFDESTRUCT", 2), ("SYSINFO", 3), ("SLEEP", 4),
       ("UPDATE_CONFIG", 5), ("DOWNLOAD", 6), ("UPLOAD", 7), ("INJECT", 8)] := by
  refine ⟨by decide, ?_, by decide⟩
  intro s o ho h
  simp only [Opcodes.entries, List.mem_cons, List.not_mem_nil, or_false] at ho
  rcases ho with rfl | rfl | rfl | rfl | rfl | rfl | rfl | rfl
  · have h2 : pyLower s = "cmd" := h.trans (by decide)
    have c0 := opcode_pred_true "CMD" s (by rw [h2]; decide)
    simp [Opcodes.get_by_name, Opcodes.entries, List.find?, c0]
  · have h2 : pyLower s = "selfdestruct" := h.trans (by decide)
    have c0 := opcode_pred_false "CMD" s (by rw [h2]; decide)
    have c1 := opcode_pred_true "SELFDESTRUCT" s (by rw [h2]; decide)
    simp [Opcodes.get_by_name, Opcodes.entries, List.find?, c0, c1]
  · have h2 : pyLower s = "sysinfo" := h.trans (by decide)
    have c0 := opcode_pred_false "CMD" s (by rw [h2]; decide)
    have c1 := opcode_pred_false "SELFDESTRUCT" s (by rw [h2]; decide)
    have c2 := opcode_pred_true "SYSINFO" s (by rw [h2]; decide)
    simp [Opcodes.get_by_name, Opcodes.entries, List.find?, c0, c1, c2]
  · have h2 : pyLower s = "sleep" := h.trans (by decide)
    have c0 := opcode_pred_false "CMD" s (by rw [h2]; decide)
    have c1 := opcode_pred_false "SELFDESTRUCT" s (by rw [h2]; decide)
    have c2 := opcode_pred_false "SYSINFO" s (by rw [h2]; decide)
    have c3 := opcode_pred_true "SLEEP" s (by rw [h2]; decide)
    simp [Opcodes.get_by_name, Opcodes.entries, List.find?, c0, c1, c2, c3]
  · have h2 : pyLower s = "update_config" := h.trans (by decide)
    have c0 := opcode_pred_false "CMD" s (by rw [h2]; decide)
    have c1 := opcode_pred_false "SELFDESTRUCT" s (by rw [h2]; decide)
    have c2 := opcode_pred_false "SYSINFO" s (by rw [h2]; decide)
    have c3 := opcode_pred_false "SLEEP" s (by rw [h2]; decide)
    have c4 := opcode_pred_true "UPDATE_CONFIG" s (by rw [h2]; decide)
    simp [Opcodes.get_by_name, Opcodes.entries, List.find?, c0, c1, c2, c3, c4]
  · have h2 : pyLower s = "download" := h.trans (by decide)
    have c0 := opcode_pred_false "CMD" s (by rw [h2]; decide)
    have c1 := opcode_pred_false "SELFDESTRUCT" s (by rw [h2]; decide)
    have c2 := opcode_pred_false "SYSINFO" s (by rw [h2]; decide)
    have c3 := opcode_pred_false "SLEEP" s (by rw [h2]; decide)
    have c4 := opcode_pred_false "UPDATE_CONFIG" s (by rw [h2]; decide)
    have c5 := opcode_pred_true "DOWNLOAD" s (by rw [h2]; decide)
    simp [Opcodes.get_by_name, Opcodes.entries, List.find?, c0, c1, c2, c3, c4, c5]
  · have h2 : pyLower s = "upload" := h.trans (by decide)
    have c0 := opcode_pred_false "CMD" s (by rw [h2]; decide)
    have c1 := opcode_pred_false "SELFDESTRUCT" s (by rw [h2]; decide)
    have c2 := opcode_pred_false "SYSINFO" s (by rw [h2]; decide)
    have c3 := opcode_pred_false "SLEEP" s (by rw [h2]; decide)
    have c4 := opcode_pred_false "UPDATE_CONFIG" s (by rw [h2]; decide)
    have c5 := opcode_pred_false "DOWNLOAD" s (by rw [h2]; decide)
    have c6 := opcode_pred_true "UPLOAD" s (by rw [h2]; decide)
    simp [Opcodes.get_by_name, Opcodes.entries, List.find?, c0, c1, c2, c3, c4, c5, c6]
  · have h2 : pyLower s = "inject" := h.trans (by decide)
    have c0 := opcode_pred_false "CMD" s (by rw [h2]; decide)
    have c1 := opcode_pred_false "SELFDESTRUCT" s (by rw [h2]; decide)
    have c2 := opcode_pred_false "SYSINFO" s (by rw [h2]; decide)
    have c3 := opcode_pred_false "SLEEP" s (by rw [h2]; decide)
    have c4 := opcode_pred_false "UPDATE_CONFIG" s (by rw [h2]; decide)
    have c5 := opcode_pred_false "DOWNLOAD" s (by rw [h2]; decide)
    have c6 := opcode_pred_false "UPLOAD" s (by rw [h2]; decide)
    have c7 := opcode_pred_true "INJECT" s (by rw [h2]; decide)
    simp [Opcodes.get_by_name, Opcodes.entries, List.find?, c0, c1, c2, c3, c4, c5, c6, c7]

/-- C6 witness: the round-trip at CMD and a mixed-case lookup of SLEEP. -/
theorem claim_C6_witness :
    (Opcodes.get_by_name "CMD").bind Opcodes.get_by_value = some "CMD" ∧
    Opcodes.get_by_name "sLeEp" = some 4 :=
  ⟨claim_C6_opcode_roundtrip.1 ⟨"CMD", 1⟩ (by decide),
   claim_C6_opcode_roundtrip.2.1 "sLeEp" ⟨"SLEEP", 4⟩ (by decide) (by decide)⟩

/-- C10: whenever the client config stores a nonempty token — even one the
server would accept on a correctly formed request — the status request built
by check_auth_token carries the token only in an Authentication header and no
Authorization header, the server-side token resolution (which reads only
Authorization) finds nothing, the status endpoint answers the 401
Not-authenticated body, check_auth_token reads status false, and ensure_token
therefore replaces the stored token with the result of a full re-run of the
challenge authentication. -/
theorem claim_C10_header_mismatch (config : OperatorConfig) (st : ServerState)
    (now : Nat) (t fresh_auth : String) (operator : Operator)
    (ht : config.auth_token = some t) (h0 : t.length ≠ 0)
    (hvalid : verify_auth_token st ⟨[("Authorization", "Bearer " ++ t)], none⟩ now =
      Except.ok (some operator)) :
    (check_auth_token_request config).headers = [("Authentication", "Bearer " ++ t)] ∧
    headerGet (check_auth_token_request config).headers "Authorization" = none ∧
    token_status_endpoint st (check_auth_token_request config) now =
      Except.ok (not_authenticated_response, st) ∧
    check_auth_token config st now = Except.ok (JVal.jbool false) ∧
    ensure_token config st now fresh_auth =
      Except.ok { config with auth_token := some fresh_auth } := by
  have hpred : (pyLower "Authentication" == pyLower "Authorization") = false := by decide
  have h1 : (check_auth_token_request config).headers =
      [("Authentication", "Bearer " ++ t)] := by
    simp [check_auth_token_request, ht, pyFormatOpt]
  have h2 : headerGet (check_auth_token_request config).headers "Authorization" = none := by
    rw [h1]
    simp [headerGet, List.find?, hpred]
  have h3 : verify_auth_token st (check_auth_token_request config) now = Except.ok none := by
    simp [verify_auth_token, h2]
  have h4 : token_status_endpoint st (check_auth_token_request config) now =
      Except.ok (not_authenticated_response, st) := by
    simp [token_status_endpoint, verified, h3]
  have h5 : check_auth_token config st now = Except.ok (JVal.jbool false) := by
    simp [check_auth_token, h4, not_authenticated_response, mkObj, jget]
  have hlen : (t.length == 0) = false := beq_eq_false_iff_ne.mpr h0
  refine ⟨h1, h2, h4, h5, ?_⟩
  simp [ensure_token, ht, hlen, h5, pyTruthy]

/-- C10 witness: a concrete config holding a token the server still considers
valid at time 50 nevertheless ends up re-authenticated with the fresh token. -/
theorem claim_C10_witness :
    ensure_token ⟨"h", 1, "alice", some "tok"⟩
        ⟨[⟨"alice", "sec", some "tok", some 100⟩], []⟩ 50 "NEW" =
      Except.ok ⟨"h", 1, "alice", some "NEW"⟩ :=
  (claim_C10_header_mismatch ⟨"h", 1, "alice", some "tok"⟩
      ⟨[⟨"alice", "sec", some "tok", some 100⟩], []⟩ 50 "tok" "NEW"
      ⟨"alice", "sec", some "tok", some 100⟩ rfl (by decide) (by decide)).2.2.2.2

end Maliketh
